import Mathlib

/-!
Verification development for the riviera RV64I instruction-set simulator.

Shallow embedding conventions:
* Rust machine integers (`u8`/`u16`/`u32`/`u64`, `usize`) are `Nat` values,
  reduced `% 2^w` at every operation where overflow or truncation matters
  (Rust release-mode wrapping semantics).
* Signed casts and comparisons go through explicit two's-complement views
  (`toSigned32`, `toSigned64`); signed wrapping add/sub on w-bit values is
  the same bit pattern as `(a + b) % 2^w` resp. `(a + 2^w - b) % 2^w`.
* Fallible Rust code (slice indexing out of range, `panic!`) is embedded
  with `Option`: `none` models the panic.
* `Vec<u8>` buffers are `List Nat` of byte values.
-/

namespace Riviera

/-- Two's-complement signed value of a 64-bit pattern (`x as i64`). -/
def toSigned64 (x : Nat) : Int :=
  if x < 2 ^ 63 then (x : Int) else (x : Int) - 2 ^ 64

/-- Two's-complement signed value of a 32-bit pattern (`x as i32`). -/
def toSigned32 (x : Nat) : Int :=
  if x < 2 ^ 31 then (x : Int) else (x : Int) - 2 ^ 32

/-- The 64-bit pattern of an integer (`as u64` of an `i64` value). -/
def u64ofInt (i : Int) : Nat := (i % (2 ^ 64 : Int)).toNat

/-- Sign-extend a 32-bit pattern to a 64-bit pattern (`as i32 as i64 as u64`). -/
def sext32 (x : Nat) : Nat :=
  if x < 2 ^ 31 then x else x + (2 ^ 64 - 2 ^ 32)

/-- Sign-extend a 16-bit pattern to a 64-bit pattern (`as i16 as i64 as u64`). -/
def sext16 (x : Nat) : Nat :=
  if x < 2 ^ 15 then x else x + (2 ^ 64 - 2 ^ 16)

/-- Sign-extend an 8-bit pattern to a 64-bit pattern (`as i8 as i64 as u64`). -/
def sext8 (x : Nat) : Nat :=
  if x < 2 ^ 7 then x else x + (2 ^ 64 - 2 ^ 8)

/-- Wrapping 64-bit subtraction (`a - b` on `u64`, release semantics). -/
def u64sub (a b : Nat) : Nat := (a + (2 ^ 64 - b % 2 ^ 64)) % 2 ^ 64

/-- Wrapping 32-bit subtraction (`a - b` on 32-bit patterns). -/
def u32sub (a b : Nat) : Nat := (a + (2 ^ 32 - b % 2 ^ 32)) % 2 ^ 32

/-- Bitwise complement of a 64-bit pattern (`!x` on `u64`). -/
def u64not (x : Nat) : Nat := (x % 2 ^ 64) ^^^ (2 ^ 64 - 1)

/-- Arithmetic right shift of a 32-bit pattern by `k ≤ 32` bits (`i32 >> k`). -/
def sra32 (x k : Nat) : Nat :=
  if x < 2 ^ 31 then x >>> k else (x >>> k) + (2 ^ 32 - 2 ^ (32 - k))

/-- Arithmetic right shift of a 64-bit pattern by `k ≤ 64` bits (`i64 >> k`). -/
def sra64 (x k : Nat) : Nat :=
  if x < 2 ^ 63 then x >>> k else (x >>> k) + (2 ^ 64 - 2 ^ (64 - k))

/-! ### Memory (`src/memory.rs`) -/

inductive AccessSize where
  | BYTE
  | HALFWORD
  | WORD
  | DOUBLEWORD
deriving DecidableEq

/-- Number of bytes moved by each access size. -/
def AccessSize.bytes : AccessSize → Nat
  | .BYTE => 1
  | .HALFWORD => 2
  | .WORD => 4
  | .DOUBLEWORD => 8

/-- `Memory` is a contiguous byte buffer (`Vec<u8>`). -/
structure Memory where
  memory : List Nat
deriving DecidableEq

/-- Little-endian byte decomposition of the low `w` bytes of `v`
(`to_le_bytes` after truncation to `w` bytes). -/
def leBytes : Nat → Nat → List Nat
  | 0, _ => []
  | w + 1, v => v % 256 :: leBytes w (v / 256)

/-- Little-endian recomposition of a byte list (`from_le_bytes`, widened). -/
def fromLeBytes : List Nat → Nat
  | [] => 0
  | b :: bs => b + 256 * fromLeBytes bs

/-- The subslice `mem[o..o+n]`; `none` models the Rust slice-range panic. -/
def slice (mem : List Nat) (o n : Nat) : Option (List Nat) :=
  if o + n ≤ mem.length then some ((mem.drop o).take n) else none

/-- Overwrite `mem[o..o+data.length]` with `data` (`copy_from_slice` /
`clone_from_slice` on that range); callers establish the range is in bounds. -/
def splice (mem : List Nat) (o : Nat) (data : List Nat) : List Nat :=
  mem.take o ++ (data ++ mem.drop (o + data.length))

/-- `Memory::new`: `Some(size)` gives a zeroed buffer, `None` an empty one. -/
def Memory.new : Option Nat → Memory
  | some n => ⟨List.replicate n 0⟩
  | none => ⟨[]⟩

def Memory.DRAM_DEFAULT_SIZE : Nat := 4 * 1024

def Memory.ROM_DEFAULT_SIZE : Nat := 1 * 1024

def Memory.get_size (m : Memory) : Nat := m.memory.length

/-- `Memory::load`: little-endian read of `size.bytes` bytes at `paddr`. -/
def Memory.load (m : Memory) (paddr : Nat) (size : AccessSize) : Option Nat :=
  (slice m.memory paddr size.bytes).map fromLeBytes

/-- `Memory::store`: little-endian write of the low `size.bytes` bytes of
`data` at `paddr`. -/
def Memory.store (m : Memory) (data paddr : Nat) (size : AccessSize) : Option Memory :=
  if paddr + size.bytes ≤ m.memory.length then
    some ⟨splice m.memory paddr (leBytes size.bytes data)⟩
  else none

/-- `Memory::store_n_bytes`: if `paddr + size` fits, `clone_from_slice` copies
`data` over `mem[paddr..paddr+size]` (panicking unless `size = data.length`);
otherwise the whole of `data` is appended at the end with
`extend_from_slice`. -/
def Memory.store_n_bytes (m : Memory) (data : List Nat) (paddr size : Nat) :
    Option Memory :=
  if paddr + size ≤ m.memory.length then
    if size = data.length then some ⟨splice m.memory paddr data⟩ else none
  else some ⟨m.memory ++ data⟩

/-! ### Bus (`src/bus.rs`) -/

/-- `Bus` owns the two memory regions and their guest base addresses. -/
structure Bus where
  dram : Memory
  dram_offset : Nat
  rom : Memory
  rom_offset : Nat

def Bus.TEXT_START_DEFAULT : Nat := 0x00000000

def Bus.DATA_START_DEFAULT : Nat := 0x00020000

/-- `Bus::new`: DRAM sized by the argument, ROM at its default size. -/
def Bus.new (memsize : Option Nat) : Bus where
  dram := Memory.new memsize
  dram_offset := Bus.DATA_START_DEFAULT
  rom := Memory.new (some Memory.ROM_DEFAULT_SIZE)
  rom_offset := Bus.TEXT_START_DEFAULT

/-- `Bus::read`: route by comparing against the DRAM base, subtract the
region base (wrapping `u64` subtraction), and load from the region. -/
def Bus.read (bus : Bus) (addr : Nat) (size : AccessSize) : Option Nat :=
  if addr < bus.dram_offset then
    bus.rom.load (u64sub addr bus.rom_offset) size
  else
    bus.dram.load (u64sub addr bus.dram_offset) size

/-- `Bus::write`: route as in `Bus.read` and store into the region. -/
def Bus.write (bus : Bus) (data addr : Nat) (size : AccessSize) : Option Bus :=
  if addr < bus.dram_offset then
    (bus.rom.store data (u64sub addr bus.rom_offset) size).map
      fun m => { bus with rom := m }
  else
    (bus.dram.store data (u64sub addr bus.dram_offset) size).map
      fun m => { bus with dram := m }

def Bus.set_dram_offset (bus : Bus) (offset : Nat) : Bus :=
  { bus with dram_offset := offset }

def Bus.set_rom_offset (bus : Bus) (offset : Nat) : Bus :=
  { bus with rom_offset := offset }

def Bus.get_dram_size (bus : Bus) : Nat := bus.dram.get_size

def Bus.get_rom_size (bus : Bus) : Nat := bus.rom.get_size

/-- `Bus::write_from_buf`: route to the region's `store_n_bytes` with
`size = buf.len()`. -/
def Bus.write_from_buf (bus : Bus) (addr : Nat) (buf : List Nat) : Option Bus :=
  if addr < bus.dram_offset then
    (bus.rom.store_n_bytes buf (u64sub addr bus.rom_offset) buf.length).map
      fun m => { bus with rom := m }
  else
    (bus.dram.store_n_bytes buf (u64sub addr bus.dram_offset) buf.length).map
      fun m => { bus with dram := m }

/-! ### CPU state (`src/cpu.rs`) -/

/-- Register indices produced by the decoder are 5-bit fields. -/
abbrev RegIndex := Fin 32

/-- `Cpu`: 32 general registers, 4096 control/status registers, program
counter, next program counter, and the bus.  The register files are embedded
as total functions from indices to 64-bit patterns; the decoder only ever
produces indices below 32, and the CSR accessors bound-check below 4096. -/
structure Cpu where
  regs : RegIndex → Nat
  last_used_register : RegIndex
  csregs : Nat → Nat
  pc : Nat
  next_pc : Nat
  bus : Bus

def Cpu.ZERO_REGISTER : RegIndex := 0

def Cpu.RETURN_REGISTER : RegIndex := 1

def Cpu.STACK_POINTER : RegIndex := 2

def Cpu.GLOBAL_POINTER : RegIndex := 3

/-- Halt sentinel loaded into `ra` at startup. -/
def Cpu.SENTINEL_RETURN_ADDRESS : Nat := 0xfffffffffffffffe

def Cpu.PC_INITIAL_VALUE : Nat := 0x0

/-- `Cpu::new`. -/
def Cpu.new (memsize : Option Nat) : Cpu where
  regs := fun _ => 0
  last_used_register := 0
  csregs := fun _ => 0
  pc := Cpu.PC_INITIAL_VALUE
  next_pc := Cpu.PC_INITIAL_VALUE
  bus := Bus.new memsize

/-- `Cpu::write_reg`: unconditional write (no x0 suppression here). -/
def Cpu.write_reg (c : Cpu) (regi : RegIndex) (data : Nat) : Cpu :=
  { c with regs := Function.update c.regs regi data, last_used_register := regi }

/-- `Cpu::read_reg`: raw read (no x0 masking here). -/
def Cpu.read_reg (c : Cpu) (regi : RegIndex) : Nat := c.regs regi

/-- `Cpu::write_csreg`; `none` models the out-of-range panic. -/
def Cpu.write_csreg (c : Cpu) (csregi data : Nat) : Option Cpu :=
  if csregi < 4096 then some { c with csregs := Function.update c.csregs csregi data }
  else none

/-- `Cpu::read_csreg`; `none` models the out-of-range panic. -/
def Cpu.read_csreg (c : Cpu) (csregi : Nat) : Option Nat :=
  if csregi < 4096 then some (c.csregs csregi) else none

def Cpu.get_pc (c : Cpu) : Nat := c.pc

def Cpu.set_pc (c : Cpu) (value : Nat) : Cpu := { c with pc := value }

def Cpu.get_next_pc (c : Cpu) : Nat := c.next_pc

/-- `Cpu::set_next_pc_rel`: `next_pc = (pc as i64 + value) as u64`. -/
def Cpu.set_next_pc_rel (c : Cpu) (value : Int) : Cpu :=
  { c with next_pc := u64ofInt ((c.pc : Int) + value) }

/-- `Cpu::set_next_pc_abs`. -/
def Cpu.set_next_pc_abs (c : Cpu) (value : Nat) : Cpu :=
  { c with next_pc := value }

/-- `Cpu::set_stack_pointer`: writes `regs[2]` directly, without updating
`last_used_register`. -/
def Cpu.set_stack_pointer (c : Cpu) (value : Nat) : Cpu :=
  { c with regs := Function.update c.regs Cpu.STACK_POINTER value }

def Cpu.load (c : Cpu) (addr : Nat) (size : AccessSize) : Option Nat :=
  c.bus.read addr size

def Cpu.store (c : Cpu) (data addr : Nat) (size : AccessSize) : Option Cpu :=
  (c.bus.write data addr size).map fun b => { c with bus := b }

def Cpu.store_from_buffer (c : Cpu) (data : List Nat) (addr : Nat) : Option Cpu :=
  (c.bus.write_from_buf addr data).map fun b => { c with bus := b }

def Cpu.get_read_only_memsize (c : Cpu) : Nat := c.bus.get_rom_size

def Cpu.get_read_write_memsize (c : Cpu) : Nat := c.bus.get_dram_size

def Cpu.set_read_only_segment (c : Cpu) (offset : Nat) : Cpu :=
  { c with bus := c.bus.set_rom_offset offset }

def Cpu.set_read_write_segment (c : Cpu) (offset : Nat) : Cpu :=
  { c with bus := c.bus.set_dram_offset offset }

/-! ### Decoder and instruction semantics (`src/rv.rs`) -/

/-- A 5-bit register field extracted with `& 0x1f`. -/
def reg5 (x : Nat) : RegIndex :=
  ⟨x &&& 0x1f, by have h : x &&& 0x1f ≤ 0x1f := Nat.and_le_right; omega⟩

/-- `decode_immediate_jtype`: J-type offset reconstruction from the
sign-extended 32-bit `imm20` pattern (returned as the `i64` value). -/
def decode_immediate_jtype (imm20 : Nat) : Int :=
  let imm_32_20 : Nat := imm20 &&& 0xfff80000
  let imm_19_12 : Nat := (imm20 &&& 0xff) <<< 11
  let imm_11 : Nat := (imm20 &&& 0x100) <<< 2
  let imm_10_0 : Nat := (imm20 &&& 0x7fe00) >>> 8
  toSigned32 (imm_32_20 ||| imm_19_12 ||| imm_11 ||| imm_10_0)

/-- `decode_immediate_btype`: B-type offset reconstruction from the `imm5`
field and the sign-extended 32-bit `imm12` pattern. -/
def decode_immediate_btype (imm5 imm12 : Nat) : Int :=
  let imm_32_12 : Nat := imm12 &&& 0xfffff800
  let imm_11 : Nat := (imm5 &&& 0x1) <<< 10
  let imm_10_5 : Nat := imm12 &&& 0x7e0
  let imm_4_0 : Nat := imm5 &&& 0xfffffffc
  toSigned32 (imm_32_12 ||| imm_11 ||| imm_10_5 ||| imm_4_0)

/-- `decode_immediate_stype`. -/
def decode_immediate_stype (imm5 imm12 : Nat) : Int :=
  toSigned32 ((imm12 &&& 0xffffffe0) ||| imm5)

/-- LUI: `imm << 12` is a `u32` shift (wrapping in 32 bits), then
zero-extended by `as u64`. -/
def lui (curcpu : Cpu) (rd : RegIndex) (imm : Nat) : Cpu :=
  curcpu.write_reg rd ((imm <<< 12) % 2 ^ 32)

/-- AUIPC: `pc as i64 + ((imm as i32 as i64) << 12)`, written as `u64`. -/
def auipc (curcpu : Cpu) (rd : RegIndex) (imm : Nat) : Cpu :=
  curcpu.write_reg rd ((curcpu.get_pc + (sext32 imm <<< 12) % 2 ^ 64) % 2 ^ 64)

/-- JAL: link `next_pc` into `rd` when `rd ≠ 0`, then add the J-type
immediate to the PC. -/
def jal (curcpu : Cpu) (rd : RegIndex) (imm : Nat) : Cpu :=
  let c := if rd ≠ Cpu.ZERO_REGISTER then curcpu.write_reg rd curcpu.get_next_pc
           else curcpu
  c.set_next_pc_rel (decode_immediate_jtype imm)

/-- JALR: link `next_pc` into `rd` when `rd ≠ 0`, then jump to
`(rs1 + sign-extended imm) & !0x1` (the link write precedes the `rs1` read). -/
def jalr (curcpu : Cpu) (rs1 rd : RegIndex) (imm : Nat) : Cpu :=
  let c := if rd ≠ Cpu.ZERO_REGISTER then curcpu.write_reg rd curcpu.get_next_pc
           else curcpu
  c.set_next_pc_abs (((c.read_reg rs1 + sext32 imm) % 2 ^ 64) &&& 0xfffffffffffffffe)

/-- BEQ. -/
def beq (curcpu : Cpu) (rs1 rs2 : RegIndex) (imm5 imm12 : Nat) : Cpu :=
  let imm64 := decode_immediate_btype imm5 imm12
  if curcpu.read_reg rs1 = curcpu.read_reg rs2 then curcpu.set_next_pc_rel imm64
  else curcpu

/-- BNE. -/
def bne (curcpu : Cpu) (rs1 rs2 : RegIndex) (imm5 imm12 : Nat) : Cpu :=
  let imm64 := decode_immediate_btype imm5 imm12
  if curcpu.read_reg rs1 ≠ curcpu.read_reg rs2 then curcpu.set_next_pc_rel imm64
  else curcpu

/-- BLT (signed compare). -/
def blt (curcpu : Cpu) (rs1 rs2 : RegIndex) (imm5 imm12 : Nat) : Cpu :=
  let imm64 := decode_immediate_btype imm5 imm12
  if toSigned64 (curcpu.read_reg rs1) < toSigned64 (curcpu.read_reg rs2) then
    curcpu.set_next_pc_rel imm64
  else curcpu

/-- BGE (signed compare). -/
def bge (curcpu : Cpu) (rs1 rs2 : RegIndex) (imm5 imm12 : Nat) : Cpu :=
  let imm64 := decode_immediate_btype imm5 imm12
  if toSigned64 (curcpu.read_reg rs2) ≤ toSigned64 (curcpu.read_reg rs1) then
    curcpu.set_next_pc_rel imm64
  else curcpu

/-- BLTU (unsigned compare). -/
def bltu (curcpu : Cpu) (rs1 rs2 : RegIndex) (imm5 imm12 : Nat) : Cpu :=
  let imm64 := decode_immediate_btype imm5 imm12
  if curcpu.read_reg rs1 < curcpu.read_reg rs2 then curcpu.set_next_pc_rel imm64
  else curcpu

/-- BGEU (unsigned compare). -/
def bgeu (curcpu : Cpu) (rs1 rs2 : RegIndex) (imm5 imm12 : Nat) : Cpu :=
  let imm64 := decode_immediate_btype imm5 imm12
  if curcpu.read_reg rs2 ≤ curcpu.read_reg rs1 then curcpu.set_next_pc_rel imm64
  else curcpu

/-- LB: load a byte and sign-extend (`as i8 as i64`). -/
def lb (curcpu : Cpu) (rs1 rd : RegIndex) (imm12 : Nat) : Option Cpu :=
  let addr := (curcpu.read_reg rs1 + sext32 imm12) % 2 ^ 64
  (curcpu.load addr .BYTE).map fun data => curcpu.write_reg rd (sext8 data)

/-- LH: load a halfword and sign-extend (`as i16 as i64`). -/
def lh (curcpu : Cpu) (rs1 rd : RegIndex) (imm12 : Nat) : Option Cpu :=
  let addr := (curcpu.read_reg rs1 + sext32 imm12) % 2 ^ 64
  (curcpu.load addr .HALFWORD).map fun data => curcpu.write_reg rd (sext16 data)

/-- LW: load a word and sign-extend (`as i32 as i64`). -/
def lw (curcpu : Cpu) (rs1 rd : RegIndex) (imm12 : Nat) : Option Cpu :=
  let addr := (curcpu.read_reg rs1 + sext32 imm12) % 2 ^ 64
  (curcpu.load addr .WORD).map fun data => curcpu.write_reg rd (sext32 data)

/-- LD. -/
def ld (curcpu : Cpu) (rs1 rd : RegIndex) (imm12 : Nat) : Option Cpu :=
  let addr := (curcpu.read_reg rs1 + sext32 imm12) % 2 ^ 64
  (curcpu.load addr .DOUBLEWORD).map fun data => curcpu.write_reg rd data

/-- LBU (zero-extended). -/
def lbu (curcpu : Cpu) (rs1 rd : RegIndex) (imm12 : Nat) : Option Cpu :=
  let addr := (curcpu.read_reg rs1 + sext32 imm12) % 2 ^ 64
  (curcpu.load addr .BYTE).map fun data => curcpu.write_reg rd data

/-- LHU (zero-extended). -/
def lhu (curcpu : Cpu) (rs1 rd : RegIndex) (imm12 : Nat) : Option Cpu :=
  let addr := (curcpu.read_reg rs1 + sext32 imm12) % 2 ^ 64
  (curcpu.load addr .HALFWORD).map fun data => curcpu.write_reg rd data

/-- LWU (zero-extended). -/
def lwu (curcpu : Cpu) (rs1 rd : RegIndex) (imm12 : Nat) : Option Cpu :=
  let addr := (curcpu.read_reg rs1 + sext32 imm12) % 2 ^ 64
  (curcpu.load addr .WORD).map fun data => curcpu.write_reg rd data

/-- SB: `rs2` is re-extracted from the low 5 bits of the `imm12` field. -/
def sb (curcpu : Cpu) (rs1 : RegIndex) (imm12 imm5 : Nat) : Option Cpu :=
  let rs2 := reg5 imm12
  let data := curcpu.read_reg rs2
  let imm := decode_immediate_stype imm5 imm12
  let addr := (curcpu.read_reg rs1 + u64ofInt imm) % 2 ^ 64
  curcpu.store data addr .BYTE

/-- SH. -/
def sh (curcpu : Cpu) (rs1 : RegIndex) (imm12 imm5 : Nat) : Option Cpu :=
  let rs2 := reg5 imm12
  let data := curcpu.read_reg rs2
  let imm := decode_immediate_stype imm5 imm12
  let addr := (curcpu.read_reg rs1 + u64ofInt imm) % 2 ^ 64
  curcpu.store data addr .HALFWORD

/-- SW. -/
def sw (curcpu : Cpu) (rs1 : RegIndex) (imm12 imm5 : Nat) : Option Cpu :=
  let rs2 := reg5 imm12
  let data := curcpu.read_reg rs2
  let imm := decode_immediate_stype imm5 imm12
  let addr := (curcpu.read_reg rs1 + u64ofInt imm) % 2 ^ 64
  curcpu.store data addr .WORD

/-- SD. -/
def sd (curcpu : Cpu) (rs1 : RegIndex) (imm12 imm5 : Nat) : Option Cpu :=
  let rs2 := reg5 imm12
  let data := curcpu.read_reg rs2
  let imm := decode_immediate_stype imm5 imm12
  let addr := (curcpu.read_reg rs1 + u64ofInt imm) % 2 ^ 64
  curcpu.store data addr .DOUBLEWORD

/-- ADDI: signed 64-bit add, wrapping. -/
def addi (curcpu : Cpu) (rs1 rd : RegIndex) (imm12 : Nat) : Cpu :=
  curcpu.write_reg rd ((curcpu.read_reg rs1 + sext32 imm12) % 2 ^ 64)

/-- SLTI. -/
def slti (curcpu : Cpu) (rs1 rd : RegIndex) (imm12 : Nat) : Cpu :=
  if toSigned64 (curcpu.read_reg rs1) < toSigned32 imm12 then
    curcpu.write_reg rd 0x1
  else
    curcpu.write_reg rd 0x0

/-- SLTIU. -/
def sltiu (curcpu : Cpu) (rs1 rd : RegIndex) (imm12 : Nat) : Cpu :=
  if curcpu.read_reg rs1 < sext32 imm12 then
    curcpu.write_reg rd 0x1
  else
    curcpu.write_reg rd 0x0

/-- XORI. -/
def xori (curcpu : Cpu) (rs1 rd : RegIndex) (imm12 : Nat) : Cpu :=
  curcpu.write_reg rd (curcpu.read_reg rs1 ^^^ sext32 imm12)

/-- ORI. -/
def ori (curcpu : Cpu) (rs1 rd : RegIndex) (imm12 : Nat) : Cpu :=
  curcpu.write_reg rd (curcpu.read_reg rs1 ||| sext32 imm12)

/-- ANDI. -/
def andi (curcpu : Cpu) (rs1 rd : RegIndex) (imm12 : Nat) : Cpu :=
  curcpu.write_reg rd (curcpu.read_reg rs1 &&& sext32 imm12)

/-- SLLI: full 64-bit shift by `imm12 & 0x3f`. -/
def slli (curcpu : Cpu) (rs1 rd : RegIndex) (imm12 : Nat) : Cpu :=
  curcpu.write_reg rd ((curcpu.read_reg rs1 <<< (imm12 &&& 0x3f)) % 2 ^ 64)

/-- SLLIW as implemented: shifts the full 64-bit register value by
`imm12 & 0x1f` (no 32-bit truncation, no sign extension). -/
def slliw (curcpu : Cpu) (rs1 rd : RegIndex) (imm12 : Nat) : Cpu :=
  curcpu.write_reg rd ((curcpu.read_reg rs1 <<< (imm12 &&& 0x1f)) % 2 ^ 64)

/-- SRLI and SRAI as implemented: both arms of the selector perform the same
unsigned (`u64`) right shift. -/
def srli_srai (curcpu : Cpu) (rs1 rd : RegIndex) (imm12 : Nat) : Cpu :=
  let first_operand := curcpu.read_reg rs1
  let second_operand := imm12 &&& 0x3f
  if imm12 >>> 10 = 0b1 then
    curcpu.write_reg rd (first_operand >>> second_operand)
  else
    curcpu.write_reg rd (first_operand >>> second_operand)

/-- SRLIW and SRAIW as implemented: both arms shift the full 64-bit register
value right by `imm12 & 0x1f`. -/
def srliw_sraiw (curcpu : Cpu) (rs1 rd : RegIndex) (imm12 : Nat) : Cpu :=
  let first_operand := curcpu.read_reg rs1
  let second_operand := imm12 &&& 0x1f
  if imm12 >>> 10 = 0b1 then
    curcpu.write_reg rd (first_operand >>> second_operand)
  else
    curcpu.write_reg rd (first_operand >>> second_operand)

/-- ADD: signed 64-bit add, wrapping. -/
def add (curcpu : Cpu) (rs1 rs2 rd : RegIndex) : Cpu :=
  curcpu.write_reg rd ((curcpu.read_reg rs1 + curcpu.read_reg rs2) % 2 ^ 64)

/-- ADDW: 32-bit add of the truncated operands, sign-extended to 64 bits. -/
def addw (curcpu : Cpu) (rs1 rs2 rd : RegIndex) : Cpu :=
  let first_operand := curcpu.read_reg rs1 % 2 ^ 32
  let second_operand := curcpu.read_reg rs2 % 2 ^ 32
  curcpu.write_reg rd (sext32 ((first_operand + second_operand) % 2 ^ 32))

/-- SUB: signed 64-bit subtract, wrapping. -/
def sub (curcpu : Cpu) (rs1 rs2 rd : RegIndex) : Cpu :=
  curcpu.write_reg rd (u64sub (curcpu.read_reg rs1) (curcpu.read_reg rs2))

/-- SUBW: 32-bit subtract of the truncated operands, sign-extended. -/
def subw (curcpu : Cpu) (rs1 rs2 rd : RegIndex) : Cpu :=
  let first_operand := curcpu.read_reg rs1 % 2 ^ 32
  let second_operand := curcpu.read_reg rs2 % 2 ^ 32
  curcpu.write_reg rd (sext32 (u32sub first_operand second_operand))

/-- SLL: shift by `rs2 & 0x3f`. -/
def sll (curcpu : Cpu) (rs1 rs2 rd : RegIndex) : Cpu :=
  curcpu.write_reg rd
    ((curcpu.read_reg rs1 <<< (curcpu.read_reg rs2 &&& 0x3f)) % 2 ^ 64)

/-- SLLW as implemented: `u32` shift of the truncated operand, then
zero-extended by `as u64` (no sign extension). -/
def sllw (curcpu : Cpu) (rs1 rs2 rd : RegIndex) : Cpu :=
  let first_operand := curcpu.read_reg rs1 % 2 ^ 32
  let second_operand := curcpu.read_reg rs2 &&& 0x1f
  curcpu.write_reg rd ((first_operand <<< second_operand) % 2 ^ 32)

/-- SLT (signed). -/
def slt (curcpu : Cpu) (rs1 rs2 rd : RegIndex) : Cpu :=
  if toSigned64 (curcpu.read_reg rs1) < toSigned64 (curcpu.read_reg rs2) then
    curcpu.write_reg rd 0b1
  else
    curcpu.write_reg rd 0b0

/-- SLTU (unsigned). -/
def sltu (curcpu : Cpu) (rs1 rs2 rd : RegIndex) : Cpu :=
  if curcpu.read_reg rs1 < curcpu.read_reg rs2 then
    curcpu.write_reg rd 0b1
  else
    curcpu.write_reg rd 0b0

/-- XOR. -/
def xor (curcpu : Cpu) (rs1 rs2 rd : RegIndex) : Cpu :=
  curcpu.write_reg rd (curcpu.read_reg rs1 ^^^ curcpu.read_reg rs2)

/-- OR. -/
def or (curcpu : Cpu) (rs1 rs2 rd : RegIndex) : Cpu :=
  curcpu.write_reg rd (curcpu.read_reg rs1 ||| curcpu.read_reg rs2)

/-- AND. -/
def and (curcpu : Cpu) (rs1 rs2 rd : RegIndex) : Cpu :=
  curcpu.write_reg rd (curcpu.read_reg rs1 &&& curcpu.read_reg rs2)

/-- SRL: unsigned shift by `rs2 & 0x3f`. -/
def srl (curcpu : Cpu) (rs1 rs2 rd : RegIndex) : Cpu :=
  curcpu.write_reg rd (curcpu.read_reg rs1 >>> (curcpu.read_reg rs2 &&& 0x3f))

/-- SRLW as implemented: `u32` shift of the truncated operand, zero-extended. -/
def srlw (curcpu : Cpu) (rs1 rs2 rd : RegIndex) : Cpu :=
  let first_operand := curcpu.read_reg rs1 % 2 ^ 32
  let second_operand := curcpu.read_reg rs2 &&& 0x1f
  curcpu.write_reg rd (first_operand >>> second_operand)

/-- SRA: arithmetic 64-bit shift by `rs2 & 0x3f`. -/
def sra (curcpu : Cpu) (rs1 rs2 rd : RegIndex) : Cpu :=
  curcpu.write_reg rd (sra64 (curcpu.read_reg rs1) (curcpu.read_reg rs2 &&& 0x3f))

/-- SRAW: arithmetic `i32` shift of the truncated operand, sign-extended by
`as u64`. -/
def sraw (curcpu : Cpu) (rs1 rs2 rd : RegIndex) : Cpu :=
  let first_operand := curcpu.read_reg rs1 % 2 ^ 32
  let second_operand := curcpu.read_reg rs2 &&& 0x1f
  curcpu.write_reg rd (sext32 (sra32 first_operand second_operand))

/-- ADDIW: 32-bit add of the truncated operand and immediate, sign-extended. -/
def addiw (curcpu : Cpu) (rs1 rd : RegIndex) (imm12 : Nat) : Cpu :=
  let first_operand := curcpu.read_reg rs1 &&& 0xffffffff
  curcpu.write_reg rd (sext32 ((first_operand + imm12) % 2 ^ 32))

/-- CSRRW. -/
def csrrw (curcpu : Cpu) (rs1 rd : RegIndex) (imm12 : Nat) : Option Cpu :=
  let idx := imm12 &&& 0xffff
  let step1 : Option Cpu :=
    if rd ≠ Cpu.ZERO_REGISTER then (curcpu.read_csreg idx).map (curcpu.write_reg rd)
    else some curcpu
  step1.bind fun c => c.write_csreg idx (c.read_reg rs1)

/-- CSRRS. -/
def csrrs (curcpu : Cpu) (rs1 rd : RegIndex) (imm12 : Nat) : Option Cpu :=
  let idx := imm12 &&& 0xffff
  (curcpu.read_csreg idx).bind fun csr_data =>
    let c := if rd ≠ Cpu.ZERO_REGISTER then curcpu.write_reg rd csr_data else curcpu
    c.write_csreg idx (c.read_reg rs1 ||| csr_data)

/-- CSRRC. -/
def csrrc (curcpu : Cpu) (rs1 rd : RegIndex) (imm12 : Nat) : Option Cpu :=
  let idx := imm12 &&& 0xffff
  (curcpu.read_csreg idx).bind fun csr_data =>
    let c := if rd ≠ Cpu.ZERO_REGISTER then curcpu.write_reg rd csr_data else curcpu
    c.write_csreg idx (u64not (c.read_reg rs1) &&& csr_data)

/-- CSRRWI: the 5-bit `rs1` field itself is the source value. -/
def csrrwi (curcpu : Cpu) (rs1 rd : RegIndex) (imm12 : Nat) : Option Cpu :=
  let idx := imm12 &&& 0xffff
  let step1 : Option Cpu :=
    if rd ≠ Cpu.ZERO_REGISTER then (curcpu.read_csreg idx).map (curcpu.write_reg rd)
    else some curcpu
  step1.bind fun c => c.write_csreg idx (rs1.val &&& 0x1f)

/-- CSRRSI. -/
def csrrsi (curcpu : Cpu) (rs1 rd : RegIndex) (imm12 : Nat) : Option Cpu :=
  let idx := imm12 &&& 0xffff
  (curcpu.read_csreg idx).bind fun csr_data =>
    let c := if rd ≠ Cpu.ZERO_REGISTER then curcpu.write_reg rd csr_data else curcpu
    c.write_csreg idx ((rs1.val &&& 0x1f) ||| csr_data)

/-- CSRRCI. -/
def csrrci (curcpu : Cpu) (rs1 rd : RegIndex) (imm12 : Nat) : Option Cpu :=
  let idx := imm12 &&& 0xffff
  (curcpu.read_csreg idx).bind fun csr_data =>
    let c := if rd ≠ Cpu.ZERO_REGISTER then curcpu.write_reg rd csr_data else curcpu
    c.write_csreg idx (u64not (rs1.val &&& 0x1f) &&& csr_data)

/-- `rv::decode`: field extraction and the dispatch switch on
`(opcode, funct3, funct7)`.  `instr` is a `u32` pattern; `none` models the
"Not recognized" panic (and panics inside a semantic).  FENCE, FENCE.I,
ECALL and EBREAK have no observable effect on the state. -/
def decode (instr : Nat) (curcpu : Cpu) : Option Cpu :=
  let w := instr % 2 ^ 32
  let opcode := w &&& 0x7f
  let f3 := (w >>> 12) &&& 0x7
  let f7 := (w >>> 25) &&& 0x7f
  let rd := reg5 (w >>> 7)
  let rs1 := reg5 (w >>> 15)
  let rs2 := reg5 (w >>> 20)
  let imm5 := (w >>> 7) &&& 0x1f
  let imm12 := sra32 w 20
  let imm20 := sra32 w 12
  match opcode, f3, f7 with
  | 0b0110111, _, _ => some (lui curcpu rd imm20)
  | 0b0010111, _, _ => some (auipc curcpu rd imm20)
  | 0b1101111, _, _ => some (jal curcpu rd imm20)
  | 0b1100111, 0b000, _ => some (jalr curcpu rs1 rd imm12)
  | 0b1100011, 0b000, _ => some (beq curcpu rs1 rs2 imm5 imm12)
  | 0b1100011, 0b001, _ => some (bne curcpu rs1 rs2 imm5 imm12)
  | 0b1100011, 0b100, _ => some (blt curcpu rs1 rs2 imm5 imm12)
  | 0b1100011, 0b101, _ => some (bge curcpu rs1 rs2 imm5 imm12)
  | 0b1100011, 0b110, _ => some (bltu curcpu rs1 rs2 imm5 imm12)
  | 0b1100011, 0b111, _ => some (bgeu curcpu rs1 rs2 imm5 imm12)
  | 0b0000011, 0b000, _ => lb curcpu rs1 rd imm12
  | 0b0000011, 0b001, _ => lh curcpu rs1 rd imm12
  | 0b0000011, 0b010, _ => lw curcpu rs1 rd imm12
  | 0b0000011, 0b100, _ => lbu curcpu rs1 rd imm12
  | 0b0000011, 0b101, _ => lhu curcpu rs1 rd imm12
  | 0b0100011, 0b000, _ => sb curcpu rs1 imm12 imm5
  | 0b0100011, 0b001, _ => sh curcpu rs1 imm12 imm5
  | 0b0100011, 0b010, _ => sw curcpu rs1 imm12 imm5
  | 0b0010011, 0b000, _ => some (addi curcpu rs1 rd imm12)
  | 0b0010011, 0b010, _ => some (slti curcpu rs1 rd imm12)
  | 0b0010011, 0b011, _ => some (sltiu curcpu rs1 rd imm12)
  | 0b0010011, 0b100, _ => some (xori curcpu rs1 rd imm12)
  | 0b0010011, 0b110, _ => some (ori curcpu rs1 rd imm12)
  | 0b0010011, 0b111, _ => some (andi curcpu rs1 rd imm12)
  | 0b0010011, 0b001, _ => some (slli curcpu rs1 rd imm12)
  | 0b0010011, 0b101, _ => some (srli_srai curcpu rs1 rd imm12)
  | 0b0110011, 0b000, 0b0000000 => some (add curcpu rs1 rs2 rd)
  | 0b0110011, 0b000, 0b0100000 => some (sub curcpu rs1 rs2 rd)
  | 0b0110011, 0b001, 0b0000000 => some (sll curcpu rs1 rs2 rd)
  | 0b0110011, 0b010, 0b0000000 => some (slt curcpu rs1 rs2 rd)
  | 0b0110011, 0b011, 0b0000000 => some (sltu curcpu rs1 rs2 rd)
  | 0b0110011, 0b100, 0b0000000 => some (xor curcpu rs1 rs2 rd)
  | 0b0110011, 0b101, 0b0000000 => some (srl curcpu rs1 rs2 rd)
  | 0b0110011, 0b101, 0b0100000 => some (sra curcpu rs1 rs2 rd)
  | 0b0110011, 0b110, 0b0000000 => some (or curcpu rs1 rs2 rd)
  | 0b0110011, 0b111, 0b0000000 => some (and curcpu rs1 rs2 rd)
  | 0b0001111, 0b000, _ => some curcpu
  | 0b0001111, 0b001, _ => some curcpu
  | 0b1110011, 0b000, 0b0000000 => some curcpu
  | 0b1110011, 0b001, _ => csrrw curcpu rs1 rd imm12
  | 0b1110011, 0b010, _ => csrrs curcpu rs1 rd imm12
  | 0b1110011, 0b011, _ => csrrc curcpu rs1 rd imm12
  | 0b1110011, 0b101, _ => csrrwi curcpu rs1 rd imm12
  | 0b1110011, 0b110, _ => csrrsi curcpu rs1 rd imm12
  | 0b1110011, 0b111, _ => csrrci curcpu rs1 rd imm12
  | 0b0000011, 0b110, _ => lwu curcpu rs1 rd imm12
  | 0b0000011, 0b011, _ => ld curcpu rs1 rd imm12
  | 0b0100011, 0b011, _ => sd curcpu rs1 imm12 imm5
  | 0b0011011, 0b000, _ => some (addiw curcpu rs1 rd imm12)
  | 0b0011011, 0b001, 0b0000000 => some (slliw curcpu rs1 rd imm12)
  | 0b0011011, 0b101, _ => some (srliw_sraiw curcpu rs1 rd imm12)
  | 0b0111011, 0b000, 0b0000000 => some (addw curcpu rs1 rs2 rd)
  | 0b0111011, 0b000, 0b0100000 => some (subw curcpu rs1 rs2 rd)
  | 0b0111011, 0b001, 0b0000000 => some (sllw curcpu rs1 rs2 rd)
  | 0b0111011, 0b101, 0b0000000 => some (srlw curcpu rs1 rs2 rd)
  | 0b0111011, 0b101, 0b0100000 => some (sraw curcpu rs1 rs2 rd)
  | _, _, _ => none

/-! ### Fetch / decode / execute loop (`src/cpu.rs`) -/

/-- `Cpu::fetch`: 32-bit little-endian read at PC (`as Instruction`). -/
def Cpu.fetch (c : Cpu) : Option Nat :=
  (c.bus.read c.pc .WORD).map (· % 2 ^ 32)

/-- One iteration of the body of `cpu_loop` after the halt check: fetch,
predict `next_pc = pc + 4`, decode and execute, then `pc ← next_pc`. -/
def Cpu.cpu_step (c : Cpu) : Option Cpu :=
  c.fetch.bind fun fetched_instruction =>
    (decode fetched_instruction { c with next_pc := (c.pc + 4) % 2 ^ 64 }).map
      fun c2 => { c2 with pc := c2.next_pc }

/-- `Cpu::cpu_loop`, with explicit fuel standing for the unbounded Rust
`loop`: `none` means the fuel ran out (or a panic occurred); `some n` means
the loop broke at the halt sentinel having executed `n` instructions. -/
def Cpu.cpu_loop : Nat → Cpu → Option Nat
  | 0, _ => none
  | fuel + 1, c =>
    if c.pc = Cpu.SENTINEL_RETURN_ADDRESS then some 0
    else c.cpu_step.bind fun c2 => (Cpu.cpu_loop fuel c2).map (· + 1)

/-- `n` successful iterations of the loop body. -/
def Cpu.stepN : Nat → Cpu → Option Cpu
  | 0, c => some c
  | n + 1, c => c.cpu_step.bind (Cpu.stepN n)

/-! ### Emulator façade (`src/emulator.rs`, `src/elf.rs`) -/

/-- Segment placement extracted from the program headers (`elf.rs`). -/
structure AddressSpace where
  read_execute_segment : Nat
  read_execute_size : Nat
  read_execute_offset : Nat
  read_write_segment : Nat
  read_write_size : Nat
  read_write_offset : Nat

/-- `Emulator::load_program` from the point where the executable has been
read and parsed: `filebuffer` is the raw file, `addr_space` the parsed
segment placement and `entry_point` the parsed entry.  Configures the bus
bases, copies both segments, and initializes PC, `ra`, `sp` and `gp`.
`none` models a panic while slicing the file or copying a segment. -/
def load_program (cpu : Cpu) (filebuffer : List Nat) (addr_space : AddressSpace)
    (entry_point : Nat) : Option Cpu :=
  let c0 := cpu.set_read_only_segment addr_space.read_execute_segment
  let c0 := c0.set_read_write_segment addr_space.read_write_segment
  (slice filebuffer addr_space.read_execute_offset addr_space.read_execute_size).bind
    fun code_buf =>
  (c0.store_from_buffer code_buf addr_space.read_execute_segment).bind fun c1 =>
  (slice filebuffer addr_space.read_write_offset addr_space.read_write_size).bind
    fun data_buf =>
  (c1.store_from_buffer data_buf addr_space.read_write_segment).bind fun c2 =>
  let c3 := c2.set_pc entry_point
  let c4 := c3.write_reg Cpu.RETURN_REGISTER Cpu.SENTINEL_RETURN_ADDRESS
  let c5 := c4.set_stack_pointer
    ((addr_space.read_write_segment + c4.get_read_write_memsize) % 2 ^ 64)
  let c6 := c5.write_reg Cpu.GLOBAL_POINTER
    ((addr_space.read_write_segment + c5.get_read_write_memsize / 2) % 2 ^ 64)
  some c6

/-- A minimal CPU for concrete executions: empty DRAM at the default base,
ROM holding exactly the given bytes at base 0. -/
def demoCpu (instrBytes : List Nat) : Cpu where
  regs := fun _ => 0
  last_used_register := 0
  csregs := fun _ => 0
  pc := 0
  next_pc := 0
  bus :=
    { dram := ⟨[]⟩
      dram_offset := Bus.DATA_START_DEFAULT
      rom := ⟨instrBytes⟩
      rom_offset := 0 }

/-- The B-type offset layout stated by the spec:
`{imm12[11] at bit 12, imm5[0] at bit 11, imm12[10:5] at bits 10:5,
imm5[4:1] at bits 4:1, 0 at bit 0}`, sign-extended from 13 bits. -/
def spec_btype_offset (imm5 imm12 : Nat) : Int :=
  let raw := (((imm12 >>> 11) &&& 0x1) <<< 12) ||| ((imm5 &&& 0x1) <<< 11) |||
    (imm12 &&& 0x7e0) ||| (imm5 &&& 0x1e)
  if raw < 2 ^ 12 then (raw : Int) else (raw : Int) - 2 ^ 13

/-- The J-type offset layout stated by the spec, as a function of the raw
20-bit field `imm20 = instr[31:12]`:
`{imm20[19] at bit 20, imm20[7:0] at bits 19:12, imm20[8] at bit 11,
imm20[18:9] at bits 10:1, 0 at bit 0}`, sign-extended from 21 bits. -/
def spec_jtype_offset (imm20 : Nat) : Int :=
  let raw := (((imm20 >>> 19) &&& 0x1) <<< 20) ||| ((imm20 &&& 0xff) <<< 12) |||
    (((imm20 >>> 8) &&& 0x1) <<< 11) ||| (((imm20 >>> 9) &&& 0x3ff) <<< 1)
  if raw < 2 ^ 20 then (raw : Int) else (raw : Int) - 2 ^ 21

/-! ### Helper lemmas about byte buffers -/

lemma length_leBytes (w : Nat) : ∀ v, (leBytes w v).length = w := by
  induction w with
  | zero => intro v; simp [leBytes]
  | succ w ih => intro v; simp [leBytes, ih]

lemma fromLeBytes_leBytes (w : Nat) : ∀ v, fromLeBytes (leBytes w v) = v % 2 ^ (8 * w) := by
  induction w with
  | zero => intro v; simp [leBytes, fromLeBytes, Nat.mod_one]
  | succ w ih =>
    intro v
    have hpow : (2 : Nat) ^ (8 * (w + 1)) = 256 * 2 ^ (8 * w) := by
      rw [Nat.mul_succ, pow_add]
      ring
    rw [leBytes, fromLeBytes, ih, hpow, Nat.mod_mul]

lemma length_splice (mem data : List Nat) (o : Nat) (h : o + data.length ≤ mem.length) :
    (splice mem o data).length = mem.length := by
  simp only [splice, List.length_append, List.length_take, List.length_drop]
  omega

lemma drop_take_splice (mem data : List Nat) (o : Nat) (h : o + data.length ≤ mem.length) :
    ((splice mem o data).drop o).take data.length = data := by
  have h1 : (mem.take o).length = o := by
    simp only [List.length_take]
    omega
  rw [splice, List.drop_left' h1, List.take_left' rfl]

lemma getElem?_splice_inside (mem data : List Nat) (o i : Nat)
    (h : o + data.length ≤ mem.length) (hi : i < data.length) :
    (splice mem o data)[o + i]? = data[i]? := by
  have h1 : (mem.take o).length = o := by
    simp only [List.length_take]
    omega
  rw [splice, List.getElem?_append_right (by omega : (mem.take o).length ≤ o + i)]
  rw [h1, Nat.add_sub_cancel_left, List.getElem?_append_left hi]

lemma getElem?_splice_left (mem data : List Nat) (o j : Nat)
    (ho : o ≤ mem.length) (hj : j < o) :
    (splice mem o data)[j]? = mem[j]? := by
  have h1 : (mem.take o).length = o := by
    simp only [List.length_take]
    omega
  rw [splice, List.getElem?_append_left (by omega), List.getElem?_take_of_lt hj]

lemma getElem?_splice_right (mem data : List Nat) (o j : Nat)
    (ho : o ≤ mem.length) (hj : o + data.length ≤ j) :
    (splice mem o data)[j]? = mem[j]? := by
  have h1 : (mem.take o).length = o := by
    simp only [List.length_take]
    omega
  rw [splice, List.getElem?_append_right (by omega : (mem.take o).length ≤ j), h1]
  rw [List.getElem?_append_right (by omega : data.length ≤ j - o)]
  rw [List.getElem?_drop]
  congr 1
  omega

lemma u64sub_self (a : Nat) (h : a < 2 ^ 64) : u64sub a a = 0 := by
  simp only [u64sub, Nat.mod_eq_of_lt h]
  omega

lemma slice_length (buf : List Nat) (o n : Nat) (out : List Nat)
    (h : slice buf o n = some out) : out.length = n := by
  rw [slice] at h
  by_cases hc : o + n ≤ buf.length
  · rw [if_pos hc] at h
    obtain rfl : (buf.drop o).take n = out := Option.some.inj h
    simp only [List.length_take, List.length_drop]
    omega
  · rw [if_neg hc] at h
    exact absurd h (by simp)

/-! ### Claim theorems -/

/-- Claim C7: for every access width, every in-bounds offset and every value,
storing and then loading at the same offset and width returns the value
truncated to the width (little-endian round trip). -/
theorem store_load_roundtrip (m : Memory) (o v : Nat) (sz : AccessSize)
    (h : o + sz.bytes ≤ m.memory.length) :
    (m.store v o sz).bind (fun m2 => m2.load o sz) = some (v % 2 ^ (8 * sz.bytes)) := by
  have hlb : (leBytes sz.bytes v).length = sz.bytes := length_leBytes _ _
  have hb : o + (leBytes sz.bytes v).length ≤ m.memory.length := by rw [hlb]; exact h
  have hl : (splice m.memory o (leBytes sz.bytes v)).length = m.memory.length :=
    length_splice _ _ _ hb
  unfold Memory.store
  rw [if_pos h, Option.some_bind]
  unfold Memory.load slice
  rw [if_pos (by rw [hl]; exact h)]
  have hdt : ((splice m.memory o (leBytes sz.bytes v)).drop o).take sz.bytes
      = leBytes sz.bytes v := by
    have h2 := drop_take_splice m.memory (leBytes sz.bytes v) o hb
    rw [hlb] at h2
    exact h2
  simp [hdt, fromLeBytes_leBytes]

/-- Witness for C7 at a concrete memory, offset, value and width. -/
theorem store_load_roundtrip_witness :
    1 + AccessSize.HALFWORD.bytes ≤ (Memory.mk [0, 0, 0]).memory.length ∧
    ((Memory.mk [0, 0, 0]).store 0xDEAD 1 .HALFWORD).bind
      (fun m2 => m2.load 1 .HALFWORD) = some (0xDEAD % 2 ^ (8 * AccessSize.HALFWORD.bytes)) :=
  ⟨by decide, store_load_roundtrip ⟨[0, 0, 0]⟩ 1 0xDEAD .HALFWORD (by decide)⟩

/-- Claim C6: if the loop body executes `k` times from state `c` and the
resulting state (the first one whose PC equals the halt sentinel at loop
head) halts, then `cpu_loop` terminates with fuel `k + 1` and returns
exactly `k`, the number of executed instructions, not counting the halted
step; each executed instruction contributes exactly 1 to the count. -/
theorem cpu_loop_halt_count (k : Nat) :
    ∀ (c c' : Cpu), Cpu.stepN k c = some c' →
      c'.pc = Cpu.SENTINEL_RETURN_ADDRESS →
      (∀ i ci, i < k → Cpu.stepN i c = some ci →
        ci.pc ≠ Cpu.SENTINEL_RETURN_ADDRESS) →
      Cpu.cpu_loop (k + 1) c = some k := by
  induction k with
  | zero =>
    intro c c' hrun hhalt _
    have hc : c = c' := by
      simpa [Cpu.stepN] using hrun
    subst hc
    simp [Cpu.cpu_loop, hhalt]
  | succ k ih =>
    intro c c' hrun hhalt hfirst
    have hne : c.pc ≠ Cpu.SENTINEL_RETURN_ADDRESS :=
      hfirst 0 c (Nat.succ_pos k) rfl
    rw [Cpu.stepN] at hrun
    obtain ⟨c1, hstep, hrest⟩ := Option.bind_eq_some.mp hrun
    have hfirst2 : ∀ i ci, i < k → Cpu.stepN i c1 = some ci →
        ci.pc ≠ Cpu.SENTINEL_RETURN_ADDRESS := by
      intro i ci hi hstepi
      refine hfirst (i + 1) ci (by omega) ?_
      rw [Cpu.stepN, hstep, Option.some_bind]
      exact hstepi
    have hloop := ih c1 c' hrest hhalt hfirst2
    show Cpu.cpu_loop (k + 1 + 1) c = some (k + 1)
    rw [Cpu.cpu_loop, if_neg hne, hstep, Option.some_bind, hloop, Option.map_some']

/-- Witness for C6: a state already at the sentinel halts immediately with
count 0. -/
theorem cpu_loop_halt_count_witness :
    Cpu.stepN 0 { demoCpu [] with pc := Cpu.SENTINEL_RETURN_ADDRESS } =
      some { demoCpu [] with pc := Cpu.SENTINEL_RETURN_ADDRESS } ∧
    Cpu.cpu_loop 1 { demoCpu [] with pc := Cpu.SENTINEL_RETURN_ADDRESS } = some 0 :=
  ⟨rfl, cpu_loop_halt_count 0
    { demoCpu [] with pc := Cpu.SENTINEL_RETURN_ADDRESS }
    { demoCpu [] with pc := Cpu.SENTINEL_RETURN_ADDRESS }
    rfl rfl (fun i _ci hi _ => absurd hi (Nat.not_lt_zero i))⟩

/-- Claim C10: for JALR with `rd = rs1 ≠ 0` the link write happens before
the source read: starting from any prior value `v` in the register, the
next PC is `((PC + 4) + sign-extended imm12) & !1`, independent of `v`,
while the register still receives `PC + 4`. -/
theorem jalr_link_write_precedes_source_read (c : Cpu) (r : RegIndex) (imm12 v : Nat)
    (hr : r ≠ Cpu.ZERO_REGISTER)
    (hnpc : c.next_pc = (c.pc + 4) % 2 ^ 64) :
    (jalr (c.write_reg r v) r r imm12).next_pc =
      (((c.pc + 4) % 2 ^ 64 + sext32 imm12) % 2 ^ 64) &&& 0xfffffffffffffffe ∧
    (jalr (c.write_reg r v) r r imm12).read_reg r = (c.pc + 4) % 2 ^ 64 := by
  simp [jalr, hr, Cpu.write_reg, Cpu.read_reg, Cpu.get_next_pc, Cpu.set_next_pc_abs,
    Function.update_same, hnpc]

/-- Witness for C10 at a concrete state, register and immediate. -/
theorem jalr_link_write_precedes_source_read_witness :
    ((1 : RegIndex) ≠ Cpu.ZERO_REGISTER ∧
      ({ demoCpu [] with next_pc := 4 } : Cpu).next_pc =
        (({ demoCpu [] with next_pc := 4 } : Cpu).pc + 4) % 2 ^ 64) ∧
    (jalr (({ demoCpu [] with next_pc := 4 } : Cpu).write_reg 1 99) 1 1 0).next_pc =
      (((({ demoCpu [] with next_pc := 4 } : Cpu).pc + 4) % 2 ^ 64 + sext32 0) % 2 ^ 64)
        &&& 0xfffffffffffffffe ∧
    (jalr (({ demoCpu [] with next_pc := 4 } : Cpu).write_reg 1 99) 1 1 0).read_reg 1 =
      (({ demoCpu [] with next_pc := 4 } : Cpu).pc + 4) % 2 ^ 64 :=
  ⟨⟨by decide, by decide⟩,
    jalr_link_write_precedes_source_read { demoCpu [] with next_pc := 4 } 1 0 99
      (by decide) (by decide)⟩

/-- Claim C1 (code bug): executing `ADDI x0, x0, 7` (word `0x00700013`)
through a full fetch/decode/execute cycle leaves 7 readable in register 0;
the zero-register invariant is not enforced by `write_reg`/`read_reg` for
the arithmetic instructions. -/
theorem zero_register_write_observable :
    ((demoCpu [0x13, 0x00, 0x70, 0x00]).cpu_step).map
      (fun c => c.read_reg Cpu.ZERO_REGISTER) = some 7 ∧ (7 : Nat) ≠ 0 := by
  constructor
  · decide
  · decide

/-- Claim C2 (code bug): with `rs1 = 2^63` (bit 63 set) and shift amount 1,
the SRAI encoding (bit 30 set, word `0x4010D093`) and the SRLI encoding
(word `0x0010D093`) both produce the same logical-shift result `2^62`; the
arithmetic arm of `srli_srai` performs an unsigned shift, so the required
sign-replicating result `0xC000000000000000` is never produced. -/
theorem srai_equals_srli_bug :
    (decode 0x4010D093 ((demoCpu []).write_reg 1 (2 ^ 63))).map
      (fun c => c.read_reg 1) = some (2 ^ 62) ∧
    (decode 0x0010D093 ((demoCpu []).write_reg 1 (2 ^ 63))).map
      (fun c => c.read_reg 1) = some (2 ^ 62) ∧
    (2 ^ 62 : Nat) ≠ 0xC000000000000000 := by
  refine ⟨by decide, by decide, by decide⟩

/-- Claim C3 (code bug): SLLW (word `0x002091BB`, `rd = x3`, `rs1 = x1`,
`rs2 = x2`) with `rs1 = 0x40000000` and shift amount 1 writes the
zero-extended `0x80000000` to `rd`; the high 32 bits are not the sign
extension of bit 31 of the 32-bit result, which `sext32` shows would be
`0xFFFFFFFF80000000`. -/
theorem sllw_missing_sign_extension :
    (decode 0x002091BB (((demoCpu []).write_reg 1 0x40000000).write_reg 2 1)).map
      (fun c => c.read_reg 3) = some 0x80000000 ∧
    sext32 0x80000000 = 0xFFFFFFFF80000000 ∧
    (0x80000000 : Nat) ≠ 0xFFFFFFFF80000000 := by
  refine ⟨by decide, by decide, by decide⟩

/-- Claim C4 (code bug): for `imm5 = 0b00011`, `imm12 = 0` the implemented
B-type immediate is `1024` (`imm5[0]` lands at bit 10 and `imm5[1]` is
dropped), while the specified layout gives `2050` (`imm5[0]` at bit 11,
`imm5[1]` at bit 1). -/
theorem btype_immediate_misdecoded :
    decode_immediate_btype 3 0 = 1024 ∧
    spec_btype_offset 3 0 = 2050 ∧
    decode_immediate_btype 3 0 ≠ spec_btype_offset 3 0 := by
  refine ⟨by decide, by decide, by decide⟩

/-- Claim C5 (code bug): for `imm20 = 1` (instruction bit 12 set) the
implemented J-type immediate is `2048` (the `imm20[7:0]` block lands at bits
18:11), while the specified layout gives `4096` (that block belongs at bits
19:12). -/
theorem jtype_immediate_misdecoded :
    decode_immediate_jtype 1 = 2048 ∧
    spec_jtype_offset 1 = 4096 ∧
    decode_immediate_jtype 1 ≠ spec_jtype_offset 1 := by
  refine ⟨by decide, by decide, by decide⟩

/-- Counterexample to C9: storing `[1, 2]` at offset 3 of a 4-byte region
appends the whole buffer at the end.  The region grows to size 6, not to
`o + len = 5`, and the byte at offset 3 is still 0, not `buf[0] = 1`. -/
theorem store_n_bytes_grow_counterexample :
    Memory.store_n_bytes ⟨[0, 0, 0, 0]⟩ [1, 2] 3 2 = some ⟨[0, 0, 0, 0, 1, 2]⟩ ∧
    (Memory.mk [0, 0, 0, 0, 1, 2]).memory.length ≠ 3 + 2 ∧
    (Memory.mk [0, 0, 0, 0, 1, 2]).memory[3]? ≠ some 1 := by
  refine ⟨by decide, by decide, by decide⟩

/-- Claim C9 (amended): when `o + len ≤ size`, `store_bytes` copies in place
(size unchanged, bytes outside `[o, o+len)` unchanged, byte `o+i` becomes
`buf[i]`); when `o + len > size` the entire buffer is appended at the end of
the region, so the region grows to `size + len` and `buf[i]` lands at offset
`size + i`, not `o + i`. -/
theorem store_n_bytes_characterization (m : Memory) (data : List Nat) (o : Nat) :
    (o + data.length ≤ m.memory.length →
      ∃ m2 : Memory, m.store_n_bytes data o data.length = some m2 ∧
        m2.memory.length = m.memory.length ∧
        (∀ i, i < data.length → m2.memory[o + i]? = data[i]?) ∧
        (∀ j, j < o → m2.memory[j]? = m.memory[j]?) ∧
        (∀ j, o + data.length ≤ j → m2.memory[j]? = m.memory[j]?)) ∧
    (m.memory.length < o + data.length →
      m.store_n_bytes data o data.length = some ⟨m.memory ++ data⟩ ∧
      (m.memory ++ data).length = m.memory.length + data.length ∧
      (∀ i, i < data.length → (m.memory ++ data)[m.memory.length + i]? = data[i]?)) := by
  constructor
  · intro h
    refine ⟨⟨splice m.memory o data⟩, ?_, length_splice _ _ _ h, ?_, ?_, ?_⟩
    · unfold Memory.store_n_bytes
      rw [if_pos h, if_pos rfl]
    · intro i hi
      exact getElem?_splice_inside _ _ _ _ h hi
    · intro j hj
      exact getElem?_splice_left _ _ _ _ (by omega) hj
    · intro j hj
      exact getElem?_splice_right _ _ _ _ (by omega) hj
  · intro h
    refine ⟨?_, by simp, ?_⟩
    · unfold Memory.store_n_bytes
      rw [if_neg (by omega)]
    · intro i hi
      rw [List.getElem?_append_right (by omega)]
      congr 1
      omega

/-- Witness for the amended C9 on both branches: an in-place store into
`[9, 9]` at offset 1, and a growing store at offset 2. -/
theorem store_n_bytes_characterization_witness :
    (Memory.store_n_bytes ⟨[9, 9]⟩ [5] 1 1 = some ⟨[9, 5]⟩ ∧
      (Memory.mk [9, 5]).memory.length = (Memory.mk [9, 9]).memory.length ∧
      (Memory.mk [9, 5]).memory[1]? = some 5 ∧
      (Memory.mk [9, 5]).memory[0]? = some 9) ∧
    (Memory.store_n_bytes ⟨[9, 9]⟩ [5] 2 1 = some ⟨[9, 9, 5]⟩ ∧
      ((Memory.mk [9, 9]).memory ++ [5])[2]? = some 5) := by
  constructor
  · obtain ⟨m2, h1, h2, h3, h4, _⟩ :=
      (store_n_bytes_characterization ⟨[9, 9]⟩ [5] 1).1 (by decide)
    have hconc : Memory.store_n_bytes ⟨[9, 9]⟩ [5] 1 ([5] : List Nat).length =
        some ⟨[9, 5]⟩ := by decide
    rw [hconc] at h1
    obtain rfl : (⟨[9, 5]⟩ : Memory) = m2 := Option.some.inj h1
    refine ⟨hconc, h2, ?_, h4 0 (by decide)⟩
    exact h3 0 (by decide)
  · obtain ⟨h1, _, h3⟩ :=
      (store_n_bytes_characterization ⟨[9, 9]⟩ [5] 2).2 (by decide)
    refine ⟨h1, h3 0 (by decide)⟩

/-- Claim C8: when `load_program` succeeds on a fresh emulator with DRAM
size `memsize` (with the usual layout: code segment below the data segment
and a data image that fits in DRAM), the resulting CPU has PC = entry point,
`ra` = halt sentinel, `sp` = data base + DRAM size, `gp` = data base +
DRAM size / 2, and every other general register still 0. -/
theorem load_program_initial_registers
    (memsize : Nat) (filebuffer : List Nat) (a : AddressSpace) (entry_point : Nat)
    (c' : Cpu)
    (hseg : a.read_execute_segment < a.read_write_segment)
    (hfit : a.read_write_size ≤ memsize)
    (hrw : a.read_write_segment < 2 ^ 64)
    (h : load_program (Cpu.new (some memsize)) filebuffer a entry_point = some c') :
    c'.pc = entry_point ∧
    c'.read_reg Cpu.RETURN_REGISTER = Cpu.SENTINEL_RETURN_ADDRESS ∧
    c'.read_reg Cpu.STACK_POINTER = (a.read_write_segment + memsize) % 2 ^ 64 ∧
    c'.read_reg Cpu.GLOBAL_POINTER = (a.read_write_segment + memsize / 2) % 2 ^ 64 ∧
    ∀ r : RegIndex, r ≠ Cpu.RETURN_REGISTER → r ≠ Cpu.STACK_POINTER →
      r ≠ Cpu.GLOBAL_POINTER → c'.read_reg r = 0 := by
  unfold load_program at h
  obtain ⟨code_buf, hcb, h⟩ := Option.bind_eq_some.mp h
  obtain ⟨c1, hc1, h⟩ := Option.bind_eq_some.mp h
  obtain ⟨data_buf, hdb, h⟩ := Option.bind_eq_some.mp h
  obtain ⟨c2, hc2, h⟩ := Option.bind_eq_some.mp h
  obtain rfl := Option.some.inj h
  simp only [Cpu.set_read_only_segment, Cpu.set_read_write_segment,
    Bus.set_rom_offset, Bus.set_dram_offset, Cpu.new, Bus.new,
    Cpu.store_from_buffer, Bus.write_from_buf] at hc1
  rw [if_pos hseg] at hc1
  obtain ⟨b1, hb1, hc1e⟩ := Option.map_eq_some'.mp hc1
  obtain ⟨m1, hm1, hb1e⟩ := Option.map_eq_some'.mp hb1
  subst hb1e
  subst hc1e
  simp only [Cpu.store_from_buffer, Bus.write_from_buf] at hc2
  rw [if_neg (lt_irrefl _)] at hc2
  rw [u64sub_self _ hrw] at hc2
  have hdlen : data_buf.length = a.read_write_size := slice_length _ _ _ _ hdb
  have hmem : (Memory.new (some memsize)).memory.length = memsize := by
    simp [Memory.new]
  rw [Memory.store_n_bytes, if_pos (by rw [hdlen, hmem]; omega), if_pos rfl] at hc2
  rw [Option.map_some'] at hc2
  obtain rfl := Option.some.inj hc2
  have hm2len : (splice (Memory.new (some memsize)).memory 0 data_buf).length
      = memsize := by
    rw [length_splice _ _ _ (by rw [hdlen, hmem]; omega), hmem]
  simp only [Cpu.set_pc, Cpu.write_reg, Cpu.set_stack_pointer, Cpu.read_reg,
    Cpu.get_read_write_memsize, Bus.get_dram_size, Memory.get_size,
    Cpu.RETURN_REGISTER, Cpu.STACK_POINTER, Cpu.GLOBAL_POINTER, hm2len]
  refine ⟨?_, ?_, ?_, ?_, ?_⟩
  · trivial
  · rw [Function.update_noteq (by decide), Function.update_noteq (by decide),
      Function.update_same]
  · rw [Function.update_noteq (by decide), Function.update_same]
  · rw [Function.update_same]
  · intro r h1 h2 h3
    rw [Function.update_noteq h3, Function.update_noteq h2, Function.update_noteq h1]

/-- Witness for C8 on a concrete empty executable image: zero-sized
segments at bases 0 and `0x20000`, entry `0x40`, DRAM size 16. -/
theorem load_program_initial_registers_witness :
    ∃ c' : Cpu,
      load_program (Cpu.new (some 16)) []
        ⟨0, 0, 0, 0x20000, 0, 0⟩ 0x40 = some c' ∧
      c'.pc = 0x40 ∧
      c'.read_reg Cpu.RETURN_REGISTER = Cpu.SENTINEL_RETURN_ADDRESS ∧
      c'.read_reg Cpu.STACK_POINTER = (0x20000 + 16) % 2 ^ 64 ∧
      c'.read_reg Cpu.GLOBAL_POINTER = (0x20000 + 16 / 2) % 2 ^ 64 := by
  obtain ⟨c', hc⟩ : ∃ c', load_program (Cpu.new (some 16)) []
      ⟨0, 0, 0, 0x20000, 0, 0⟩ 0x40 = some c' := by
    simp [load_program, Cpu.new, Bus.new, Memory.new, Cpu.set_read_only_segment,
      Cpu.set_read_write_segment, Bus.set_rom_offset, Bus.set_dram_offset, slice,
      Cpu.store_from_buffer, Bus.write_from_buf, Memory.store_n_bytes, u64sub,
      Cpu.set_pc, Cpu.write_reg, Cpu.set_stack_pointer, Cpu.get_read_write_memsize,
      Bus.get_dram_size, Memory.get_size, List.length_replicate, splice]
  obtain ⟨h1, h2, h3, h4, _⟩ :=
    load_program_initial_registers 16 [] ⟨0, 0, 0, 0x20000, 0, 0⟩ 0x40 c'
      (by decide) (by decide) (by decide) hc
  exact ⟨c', hc, h1, h2, h3, h4⟩

end Riviera
